import Mathlib

/-!
Shallow embedding of the `Book`/`Library` core of
`src/personal_library_manager.py` (a single-file personal library catalog
manager), together with theorems settling the frozen claims about it.

Modelling conventions:
* Python in-place mutation is modelled by returning the updated object; an
  operation that can `raise` returns the (possibly unchanged) object paired
  with an `Option String` error message (`none` = no exception). When the
  source raises before mutating anything, the embedding returns the original
  object unchanged, mirroring the fact that the raise precedes every
  assignment in the method body.
* `datetime.datetime.now()` is modelled by an explicit abstract day-number
  parameter `today : Nat`; `strftime("%Y-%m-%d")` is modelled by `dateStr`,
  an injective, never-empty rendering of the day number, and
  `today + datetime.timedelta(days=d)` by `today + d`.
* Python `str.lower()` is `strLower` (per-character lowercasing) and the
  substring test `a in b` is `strContainsB b a` (list-infix on characters).
* JSON dictionaries with possibly-missing keys are records of `Option`
  fields (`none` = key absent); `dict.get(k, d)` is `Option.getD`.
-/

/-- Models `datetime.strftime("%Y-%m-%d")` applied to the abstract day number
`d`: an injective, never-empty date-string rendering. -/
def dateStr (d : Nat) : String := "D" ++ toString d

theorem dateStr_ne_empty (d : Nat) : dateStr d ≠ "" := by
  intro h
  have h2 := congrArg String.length h
  simp [dateStr, String.length_append] at h2
  exact absurd h2.1 (by decide)

/-- Models Python `str.lower()`: per-character lowercasing. -/
def strLower (s : String) : String := String.mk (s.data.map Char.toLower)

/-- Models the Python substring test `sub in s`: `sub`'s characters occur as a
contiguous infix of `s`'s characters. -/
def strContainsB (s sub : String) : Bool := decide (sub.data <:+: s.data)

theorem strContainsB_empty (s : String) : strContainsB s "" = true := by
  simp [strContainsB]

/-- Embedding of class `Book` (src/personal_library_manager.py, lines 11-132).
One field per Python instance attribute set in `__init__`. -/
structure Book where
  title : String
  author : String
  isbn : String
  genre : String
  year : Option Int
  publisher : String
  pages : Option Int
  description : String
  location : String
  status : String
  rating : Option Int
  date_added : String
  borrowed_by : String
  borrowed_date : String
  due_date : String
  tags : List String
deriving DecidableEq, Repr

/-- Embedding of `Book.__init__` (lines 14-53). Arguments appear in source
order; `nowDate` models `datetime.datetime.now().strftime("%Y-%m-%d")`, used
only when `date_added` is absent (`None`). The constructor performs no
validation and always sets the borrowing fields to the empty string. -/
def Book.init (title author isbn genre : String) (year : Option Int)
    (publisher : String) (pages : Option Int)
    (description location status : String) (rating : Option Int)
    (date_added : Option String) (nowDate : String)
    (tags : Option (List String)) : Book :=
  { title := title
    author := author
    isbn := isbn
    genre := genre
    year := year
    publisher := publisher
    pages := pages
    description := description
    location := location
    status := status
    rating := rating
    date_added := date_added.getD nowDate
    borrowed_by := ""
    borrowed_date := ""
    due_date := ""
    tags := tags.getD [] }

/-- Embedding of the flat key-value document a `Book` serializes to: the JSON
dictionary handled by `to_dict`/`from_dict` (lines 55-100). Each field is
`none` when the key is absent from the dictionary. -/
structure BookDoc where
  title : Option String
  author : Option String
  isbn : Option String
  genre : Option String
  year : Option Int
  publisher : Option String
  pages : Option Int
  description : Option String
  location : Option String
  status : Option String
  rating : Option Int
  date_added : Option String
  borrowed_by : Option String
  borrowed_date : Option String
  due_date : Option String
  tags : Option (List String)
deriving DecidableEq, Repr

/-- Embedding of `Book.to_dict` (lines 55-74): every key is present; `year`,
`pages` and `rating` carry `null` exactly when the attribute is `None`
(collapsed here with key absence, since `dict.get` cannot distinguish them). -/
def Book.to_dict (b : Book) : BookDoc :=
  { title := some b.title
    author := some b.author
    isbn := some b.isbn
    genre := some b.genre
    year := b.year
    publisher := some b.publisher
    pages := b.pages
    description := some b.description
    location := some b.location
    status := some b.status
    rating := b.rating
    date_added := some b.date_added
    borrowed_by := some b.borrowed_by
    borrowed_date := some b.borrowed_date
    due_date := some b.due_date
    tags := some b.tags }

/-- Embedding of `Book.from_dict` (lines 76-100). `data["title"]` and
`data["author"]` raise `KeyError` when the key is absent (title is subscripted
first); every other key is read with `dict.get` and a default. The borrowing
fields are assigned after construction, overwriting the empty strings set by
`__init__`. -/
def Book.from_dict (data : BookDoc) (nowDate : String) : Except String Book :=
  match data.title with
  | none => Except.error "KeyError: title"
  | some t =>
    match data.author with
    | none => Except.error "KeyError: author"
    | some a =>
      Except.ok
        { Book.init t a (data.isbn.getD "") (data.genre.getD "") data.year
            (data.publisher.getD "") data.pages (data.description.getD "")
            (data.location.getD "Shelf") (data.status.getD "Available")
            data.rating data.date_added nowDate (some (data.tags.getD [])) with
          borrowed_by := data.borrowed_by.getD ""
          borrowed_date := data.borrowed_date.getD ""
          due_date := data.due_date.getD "" }

/-- Embedding of `Book.lend` (lines 102-112). `today` models
`datetime.datetime.now()`; the due date is `today + days` in day numbers.
Failure (`raise ValueError`) happens before any assignment, so the book is
returned unchanged with the error message. -/
def Book.lend (b : Book) (borrower : String) (days : Nat) (today : Nat) :
    Book × Option String :=
  if b.status ≠ "Available" then
    (b, some ("Book is not available. Current status: " ++ b.status))
  else
    ({ b with
        status := "Borrowed"
        borrowed_by := borrower
        borrowed_date := dateStr today
        due_date := dateStr (today + days) }, none)

/-- `Book.lend` at its default argument `days = 14`. -/
def Book.lendDefault (b : Book) (borrower : String) (today : Nat) :
    Book × Option String :=
  b.lend borrower 14 today

/-- Embedding of `Book.return_book` (lines 114-122). Failure happens before
any assignment, so the book is returned unchanged with the error message. -/
def Book.return_book (b : Book) : Book × Option String :=
  if b.status ≠ "Borrowed" then
    (b, some ("Book is not borrowed. Current status: " ++ b.status))
  else
    ({ b with
        status := "Available"
        borrowed_by := ""
        borrowed_date := ""
        due_date := "" }, none)

/-- Embedding of class `Library` (lines 135-354): a name, the ordered book
list (index = book ID) and the default persistence path. -/
structure Library where
  name : String
  books : List Book
  file_path : String
deriving DecidableEq, Repr

/-- Embedding of `Library.__init__` (lines 138-142). -/
def Library.init (name : String) : Library :=
  { name := name, books := [], file_path := "library_data.json" }

/-- The duplicate test of `Library.add_book`: same title and same author under
`str.lower()` comparison. -/
def sameTitleAuthor (existing b : Book) : Bool :=
  strLower existing.title == strLower b.title &&
    strLower existing.author == strLower b.author

/-- Embedding of `Library.add_book` (lines 144-152): scan the collection for a
case-insensitive (title, author) duplicate; raise before mutating if one
exists, otherwise append. -/
def Library.add_book (lib : Library) (book : Book) : Library × Option String :=
  if lib.books.any (fun existing => sameTitleAuthor existing book) then
    (lib, some ("Book " ++ book.title ++ " by " ++ book.author ++
      " already exists in the library."))
  else
    ({ lib with books := lib.books ++ [book] }, none)

/-- The default `fields` argument of `Library.search_books` (line 186). -/
def defaultSearchFields : List String :=
  ["title", "author", "isbn", "genre", "publisher", "description", "tags"]

/-- Models `getattr(book, field)` followed by the `value is not None` test and
`str(value)`, for the data attributes of `Book` as consulted by
`search_books`. `none` covers both a failed `hasattr` (unknown attribute) and
an attribute whose value is `None` (skipped by the source). The `tags`
attribute is handled by a dedicated branch of `search_books` before this
function would be consulted. -/
def Book.fieldStr (b : Book) (field : String) : Option String :=
  match field with
  | "title" => some b.title
  | "author" => some b.author
  | "isbn" => some b.isbn
  | "genre" => some b.genre
  | "year" => b.year.map (fun y => toString y)
  | "publisher" => some b.publisher
  | "pages" => b.pages.map (fun p => toString p)
  | "description" => some b.description
  | "location" => some b.location
  | "status" => some b.status
  | "rating" => b.rating.map (fun r => toString r)
  | "date_added" => some b.date_added
  | "borrowed_by" => some b.borrowed_by
  | "borrowed_date" => some b.borrowed_date
  | "due_date" => some b.due_date
  | _ => none

/-- One field test of the `search_books` inner loop (lines 192-202): the
`tags` branch scans the tag list, any other field matches when the lowered
query is a substring of the lowered field string. `q` is the already-lowered
query. -/
def bookMatchesField (b : Book) (q : String) (field : String) : Bool :=
  if field == "tags" then
    b.tags.any (fun tag => strContainsB (strLower tag) q)
  else
    match b.fieldStr field with
    | some v => strContainsB (strLower v) q
    | none => false

/-- The `for i, book in enumerate(self.books)` loop of `search_books`: a book
is reported (once, via `break`) when any of the fields matches. -/
def searchAux (q : String) (fields : List String) : Nat → List Book → List Nat
  | _, [] => []
  | i, b :: bs =>
    if fields.any (bookMatchesField b q) then
      i :: searchAux q fields (i + 1) bs
    else
      searchAux q fields (i + 1) bs

/-- Embedding of `Library.search_books` (lines 180-204). The caller passes the
`fields` list explicitly; the Python default `None` stands for
`defaultSearchFields`. -/
def Library.search_books (lib : Library) (query : String)
    (fields : List String) : List Nat :=
  searchAux (strLower query) fields 0 lib.books

/-- A Python value as stored in a `Book` attribute and compared by the generic
equality branch of `filter_books`. -/
inductive PyVal where
  | str (s : String)
  | int (n : Int)
  | noneVal
  | strList (l : List String)
deriving DecidableEq, Repr

/-- Models `hasattr(book, key)` / `getattr(book, key)` over the data
attributes of `Book`, as consulted by the generic branch of `filter_books`.
`none` models `hasattr` returning `False`. -/
def Book.getAttr (b : Book) (key : String) : Option PyVal :=
  match key with
  | "title" => some (PyVal.str b.title)
  | "author" => some (PyVal.str b.author)
  | "isbn" => some (PyVal.str b.isbn)
  | "genre" => some (PyVal.str b.genre)
  | "year" => some (match b.year with | some y => PyVal.int y | none => PyVal.noneVal)
  | "publisher" => some (PyVal.str b.publisher)
  | "pages" => some (match b.pages with | some p => PyVal.int p | none => PyVal.noneVal)
  | "description" => some (PyVal.str b.description)
  | "location" => some (PyVal.str b.location)
  | "status" => some (PyVal.str b.status)
  | "rating" => some (match b.rating with | some r => PyVal.int r | none => PyVal.noneVal)
  | "date_added" => some (PyVal.str b.date_added)
  | "borrowed_by" => some (PyVal.str b.borrowed_by)
  | "borrowed_date" => some (PyVal.str b.borrowed_date)
  | "due_date" => some (PyVal.str b.due_date)
  | "tags" => some (PyVal.strList b.tags)
  | _ => none

/-- One keyword argument of `Library.filter_books`. The four ranged keys are
distinguished by the source before the generic `hasattr` branch, so they get
dedicated constructors; `attr key value` is any other keyword. -/
inductive FilterArg where
  | year_from (v : Int)
  | year_to (v : Int)
  | rating_from (v : Int)
  | rating_to (v : Int)
  | attr (key : String) (value : PyVal)
deriving DecidableEq, Repr

/-- One predicate test of the `filter_books` inner loop (lines 216-240),
including the fall-through: when the book's `year` is `None`, the
`year_from`/`year_to` guard fails, `hasattr(book, "year_from")` is `False`,
and the final `else` sets `match = False` (and likewise for `rating`). -/
def FilterArg.check (b : Book) : FilterArg → Bool
  | FilterArg.year_from v =>
    (match b.year with
     | some y => decide (¬ y < v)
     | none => false)
  | FilterArg.year_to v =>
    (match b.year with
     | some y => decide (¬ y > v)
     | none => false)
  | FilterArg.rating_from v =>
    (match b.rating with
     | some r => decide (¬ r < v)
     | none => false)
  | FilterArg.rating_to v =>
    (match b.rating with
     | some r => decide (¬ r > v)
     | none => false)
  | FilterArg.attr key value =>
    (match b.getAttr key with
     | some pv => pv == value
     | none => false)

/-- The `for i, book in enumerate(self.books)` loop of `filter_books`: a book
is reported when every supplied predicate holds (logical AND). -/
def filterAux (args : List FilterArg) : Nat → List Book → List Nat
  | _, [] => []
  | i, b :: bs =>
    if args.all (fun a => FilterArg.check b a) then
      i :: filterAux args (i + 1) bs
    else
      filterAux args (i + 1) bs

/-- Embedding of `Library.filter_books` (lines 206-245). -/
def Library.filter_books (lib : Library) (args : List FilterArg) : List Nat :=
  filterAux args 0 lib.books

/-- The persisted JSON document `{"name": ..., "books": [...]}` handled by
`save_to_file`/`load_from_file`; `none` = key absent. -/
structure LibDoc where
  name : Option String
  books : Option (List BookDoc)
deriving DecidableEq, Repr

/-- An existing file as seen by `load_from_file`: either text that
`json.load` rejects (`JSONDecodeError`), or a parsed JSON object of the
persisted shape. -/
inductive FsFile where
  | corrupted
  | parsed (d : LibDoc)
deriving DecidableEq, Repr

/-- Result of `load_from_file`: the final library state plus the text of an
`st.error` UI message when one was displayed. The method itself never raises:
both `except` clauses swallow the exception into `st.error`. -/
structure LoadOutcome where
  lib : Library
  uiError : Option String
deriving DecidableEq, Repr

/-- Embedding of `Library.save_to_file` (lines 247-258): a non-`None` path
argument overwrites `self.file_path` first; the document
`{"name": self.name, "books": [book.to_dict() ...]}` is then written to
`self.file_path`. Returns the post-state and the (path, document) write. -/
def Library.save_to_file (lib : Library) (pathArg : Option String) :
    Library × (String × LibDoc) :=
  let lib1 := match pathArg with
    | some p => { lib with file_path := p }
    | none => lib
  (lib1, (lib1.file_path,
    { name := some lib1.name, books := some (lib1.books.map Book.to_dict) }))

/-- Embedding of `Library.load_from_file` (lines 260-277), over an abstract
file system `fs` (`none` = path does not exist). A non-`None` path argument
overwrites `self.file_path` first. A missing file returns immediately. A
`JSONDecodeError` is swallowed into `st.error`. On a parsed document,
`self.name` is assigned before the book list is rebuilt, so a document whose
book entries fail `from_dict` (caught by the generic `except`) leaves the
library with the new name but the stale books. -/
def Library.load_from_file (lib : Library) (pathArg : Option String)
    (fs : String → Option FsFile) (nowDate : String) : LoadOutcome :=
  let lib1 := match pathArg with
    | some p => { lib with file_path := p }
    | none => lib
  match fs lib1.file_path with
  | none => { lib := lib1, uiError := none }
  | some FsFile.corrupted =>
    { lib := lib1,
      uiError := some ("Error: " ++ lib1.file_path ++ " is not a valid JSON file.") }
  | some (FsFile.parsed d) =>
    let newName := d.name.getD "My Personal Library"
    match (d.books.getD []).mapM (fun bd => Book.from_dict bd nowDate) with
    | Except.ok bs =>
      { lib := { lib1 with name := newName, books := bs }, uiError := none }
    | Except.error e =>
      { lib := { lib1 with name := newName },
        uiError := some ("Error loading library: " ++ e) }

/-- The statistics dictionary returned by `Library.get_statistics` (lines
279-354). Insertion-ordered Python dicts become association lists; the
heterogeneous `ratings` dict `{1..5, "unrated"}` is split into its integer
keys (`ratings`) and its string key (`ratings_unrated`). -/
structure Stats where
  total_books : Nat
  available_books : Nat
  borrowed_books : Nat
  genres : List (String × Nat)
  authors : List (String × Nat)
  years : List (Int × Nat)
  ratings : List (Int × Nat)
  ratings_unrated : Nat
  tags : List (String × Nat)
  avg_rating : ℚ
  oldest_book : Option (String × Int)
  newest_book : Option (String × Int)
deriving DecidableEq, Repr

/-- Models `d[k] = d.get(k, 0) + 1` on an insertion-ordered Python dict. -/
def dictIncr [DecidableEq α] (d : List (α × Nat)) (k : α) : List (α × Nat) :=
  if d.any (fun p => decide (p.1 = k)) then
    d.map (fun p => if p.1 = k then (p.1, p.2 + 1) else p)
  else
    d ++ [(k, 1)]

/-- The oldest-book tracking of the statistics loop (lines 326-327):
`if stats["oldest_book"] is None or book.year < stats["oldest_book"][1]`. -/
def oldestUpd (s : Stats) (t : String) (y : Int) : Stats :=
  match s.oldest_book with
  | none => { s with oldest_book := some (t, y) }
  | some ob => if y < ob.2 then { s with oldest_book := some (t, y) } else s

/-- The newest-book tracking of the statistics loop (lines 329-330). -/
def newestUpd (s : Stats) (t : String) (y : Int) : Stats :=
  match s.newest_book with
  | none => { s with newest_book := some (t, y) }
  | some nb => if y > nb.2 then { s with newest_book := some (t, y) } else s

/-- The `if book.year:` block of the statistics loop (lines 322-330): the year
histogram and the oldest/newest tracking, entered only when `year` is truthy
(present and nonzero). -/
def yearUpdate (s : Stats) (b : Book) : Stats :=
  match b.year with
  | none => s
  | some y =>
    if y ≠ 0 then
      newestUpd (oldestUpd { s with years := dictIncr s.years y } b.title y)
        b.title y
    else s

/-- One iteration of the statistics loop (lines 313-342) over the accumulator
(stats dict, `total_rating`, `rated_books`). `if book.rating:` is Python
truthiness: a rating counts as rated exactly when it is present and nonzero. -/
def statsStep (acc : Stats × Int × Nat) (b : Book) : Stats × Int × Nat :=
  let s1 := if b.genre ≠ "" then
    { acc.1 with genres := dictIncr acc.1.genres b.genre } else acc.1
  let s2 := { s1 with authors := dictIncr s1.authors b.author }
  let s3 := yearUpdate s2 b
  let res := match b.rating with
    | some r =>
      if r ≠ 0 then
        ({ s3 with ratings := dictIncr s3.ratings r }, acc.2.1 + r, acc.2.2 + 1)
      else
        ({ s3 with ratings_unrated := s3.ratings_unrated + 1 }, acc.2.1, acc.2.2)
    | none =>
      ({ s3 with ratings_unrated := s3.ratings_unrated + 1 }, acc.2.1, acc.2.2)
  ({ res.1 with tags := b.tags.foldl dictIncr res.1.tags }, res.2.1, res.2.2)

/-- The all-zero statistics dictionary returned for an empty catalog
(lines 281-294). -/
def emptyStats : Stats :=
  { total_books := 0
    available_books := 0
    borrowed_books := 0
    genres := []
    authors := []
    years := []
    ratings := [(1, 0), (2, 0), (3, 0), (4, 0), (5, 0)]
    ratings_unrated := 0
    tags := []
    avg_rating := 0
    oldest_book := none
    newest_book := none }

/-- Models `sorted(d.items(), key=lambda x: x[1], reverse=True)`: a stable
sort by descending count. -/
def sortByCountDesc [DecidableEq α] (d : List (α × Nat)) : List (α × Nat) :=
  d.mergeSort (fun x y => decide (y.2 ≤ x.2))

/-- Embedding of `Library.get_statistics` (lines 279-354). Python's
`round(x, 2)` on the float `total_rating / rated_books` is modelled by the
abstract rounding parameter `round2` applied to the exact rational mean. -/
def Library.get_statistics (round2 : ℚ → ℚ) (lib : Library) : Stats :=
  if lib.books.isEmpty then emptyStats
  else
    let s0 : Stats :=
      { total_books := lib.books.length
        available_books := (lib.books.filter (fun b => b.status == "Available")).length
        borrowed_books := (lib.books.filter (fun b => b.status == "Borrowed")).length
        genres := []
        authors := []
        years := []
        ratings := [(1, 0), (2, 0), (3, 0), (4, 0), (5, 0)]
        ratings_unrated := 0
        tags := []
        avg_rating := 0
        oldest_book := none
        newest_book := none }
    let res := lib.books.foldl statsStep (s0, 0, 0)
    let s4 := if res.2.2 > 0 then
      { res.1 with avg_rating := round2 ((res.2.1 : ℚ) / (res.2.2 : ℚ)) }
    else res.1
    { s4 with
        genres := sortByCountDesc s4.genres
        authors := sortByCountDesc s4.authors
        years := sortByCountDesc s4.years
        tags := sortByCountDesc s4.tags }

/-- One step of a lending-cycle history: either `Book.lend` (at some borrower,
loan length and date) or `Book.return_book`; failed transitions leave the book
unchanged, as in the source. -/
inductive LendOp where
  | lendOp (borrower : String) (days : Nat) (today : Nat)
  | returnOp
deriving DecidableEq, Repr

/-- Apply one lending-cycle step to a book, keeping the (possibly unchanged)
book and discarding the error signal. -/
def Book.applyOp (b : Book) (op : LendOp) : Book :=
  match op with
  | LendOp.lendOp borrower days today => (b.lend borrower days today).1
  | LendOp.returnOp => b.return_book.1

/-- The non-empty-borrower side condition on a lending history, matching the
spec's "borrower must be non-empty (enforced by caller)". -/
def LendOp.borrowerOk : LendOp → Prop
  | LendOp.lendOp borrower _ _ => borrower ≠ ""
  | LendOp.returnOp => True

instance : DecidablePred LendOp.borrowerOk := fun op => by
  cases op <;> simp [LendOp.borrowerOk] <;> infer_instance

/-- The lending-state invariant of the spec: `status = "Borrowed"` exactly
when all three borrowing fields are non-empty, and `status = "Available"`
exactly when all three are empty. -/
def lendInv (b : Book) : Prop :=
  (b.status = "Borrowed" ↔
    (b.borrowed_by ≠ "" ∧ b.borrowed_date ≠ "" ∧ b.due_date ≠ "")) ∧
  (b.status = "Available" ↔
    (b.borrowed_by = "" ∧ b.borrowed_date = "" ∧ b.due_date = ""))

instance (b : Book) : Decidable (lendInv b) := by
  unfold lendInv; infer_instance

theorem lendInv_lend (b : Book) (borrower : String) (days today : Nat)
    (hb : lendInv b) (hbr : borrower ≠ "") :
    lendInv (b.lend borrower days today).1 := by
  unfold Book.lend
  split
  · exact hb
  · refine ⟨?_, ?_⟩ <;> simp [hbr, dateStr_ne_empty]

theorem lendInv_return (b : Book) (hb : lendInv b) :
    lendInv b.return_book.1 := by
  unfold Book.return_book
  split
  · exact hb
  · refine ⟨?_, ?_⟩ <;> simp

theorem lendInv_foldl (ops : List LendOp) (b : Book) (hb : lendInv b)
    (hops : ∀ op ∈ ops, LendOp.borrowerOk op) :
    lendInv (ops.foldl Book.applyOp b) := by
  induction ops generalizing b with
  | nil => exact hb
  | cons op rest ih =>
    simp only [List.foldl_cons]
    refine ih _ ?_ (fun o ho => hops o (List.mem_cons_of_mem _ ho))
    cases op with
    | lendOp borrower days today =>
      exact lendInv_lend b borrower days today hb
        (hops _ (List.mem_cons_self _ _))
    | returnOp => exact lendInv_return b hb

/-- Claim C1: the lending state machine of `Book.lend`/`Book.return_book`: on an
Available book, `lend` sets status to "Borrowed", `borrowed_by` to the
borrower, `borrowed_date` to today and `due_date` to today + days (with
`lendDefault` fixing the default `days = 14`); on a Borrowed book,
`return_book` sets status to "Available" and clears the three borrowing
fields; any other attempted transition fails with the `ValueError` message
and leaves every field of the book unchanged. -/
theorem c1_lending_state_machine (b : Book) (borrower : String)
    (days today : Nat) :
    (b.status = "Available" →
      b.lend borrower days today =
        ({ b with
            status := "Borrowed"
            borrowed_by := borrower
            borrowed_date := dateStr today
            due_date := dateStr (today + days) }, none)) ∧
    (b.status ≠ "Available" →
      b.lend borrower days today =
        (b, some ("Book is not available. Current status: " ++ b.status))) ∧
    (b.status = "Borrowed" →
      b.return_book =
        ({ b with
            status := "Available"
            borrowed_by := ""
            borrowed_date := ""
            due_date := "" }, none)) ∧
    (b.status ≠ "Borrowed" →
      b.return_book =
        (b, some ("Book is not borrowed. Current status: " ++ b.status))) ∧
    b.lendDefault borrower today = b.lend borrower 14 today := by
  refine ⟨fun h => ?_, fun h => ?_, fun h => ?_, fun h => ?_, rfl⟩ <;>
    simp [Book.lend, Book.return_book, h]

/-- Witness for C1 at concrete inputs: a successful lend on an Available book
and a failed lend on a Borrowed book. -/
theorem c1_lending_state_machine_witness :
    (Book.init "Dune" "Herbert" "" "" none "" none "" "Shelf" "Available" none
        (some "d0") "d0" none).lend "Alice" 14 100 =
      ({ Book.init "Dune" "Herbert" "" "" none "" none "" "Shelf" "Available"
          none (some "d0") "d0" none with
          status := "Borrowed"
          borrowed_by := "Alice"
          borrowed_date := dateStr 100
          due_date := dateStr 114 }, none) ∧
    (Book.init "Dune" "Herbert" "" "" none "" none "" "Shelf" "Borrowed" none
        (some "d0") "d0" none).lend "Bob" 14 100 =
      (Book.init "Dune" "Herbert" "" "" none "" none "" "Shelf" "Borrowed" none
        (some "d0") "d0" none,
        some ("Book is not available. Current status: " ++ "Borrowed")) :=
  ⟨(c1_lending_state_machine _ "Alice" 14 100).1 rfl,
    (c1_lending_state_machine _ "Bob" 14 100).2.1 (by decide)⟩

/-- Claim C2 counterexample: the claimed invariant fails on a constructed book.
`Book.__init__` accepts `status="Borrowed"` yet always sets the three
borrowing fields to the empty string, so the resulting book has
status "Borrowed" with `borrowed_by` empty. -/
theorem c2_counterexample :
    ¬ lendInv (Book.init "Dune" "Herbert" "" "" none "" none "" "Shelf"
        "Borrowed" none (some "d0") "d0" none) := by
  decide

/-- Claim C2 (amended): the lending-state invariant (status "Borrowed" iff all three
borrowing fields non-empty, status "Available" iff all three empty) holds for
every book constructed with the default status "Available" and is preserved by
every sequence of `lend` (with non-empty borrower) and `return_book`
operations. Construction or deserialization with an inconsistent status (and
`update_book` writing lending fields directly) can violate it. -/
theorem c2_amended_lending_invariant (title author isbn genre : String)
    (year : Option Int) (publisher : String) (pages : Option Int)
    (description location : String) (rating : Option Int)
    (date_added : Option String) (nowDate : String)
    (tags : Option (List String)) (ops : List LendOp)
    (hops : ∀ op ∈ ops, LendOp.borrowerOk op) :
    lendInv (ops.foldl Book.applyOp
      (Book.init title author isbn genre year publisher pages description
        location "Available" rating date_added nowDate tags)) := by
  refine lendInv_foldl ops _ ?_ hops
  refine ⟨?_, ?_⟩ <;> simp [Book.init]

/-- Witness for C2 (amended) at a concrete book and a concrete
lend-then-return history. -/
theorem c2_amended_lending_invariant_witness :
    lendInv ([LendOp.lendOp "Alice" 14 100, LendOp.returnOp].foldl
      Book.applyOp
      (Book.init "Dune" "Herbert" "" "" none "" none "" "Shelf" "Available"
        none (some "d0") "d0" none)) :=
  c2_amended_lending_invariant "Dune" "Herbert" "" "" none "" none "" "Shelf"
    none (some "d0") "d0" none [LendOp.lendOp "Alice" 14 100, LendOp.returnOp]
    (by decide)

/-- Claim C3 counterexample: constructing a Book with empty title and empty author
succeeds — `Book.__init__` has no validation path at all — and produces a
book whose title and author are the empty string, contradicting the claim
that construction fails with ValidationError and no Book is created. -/
theorem c3_counterexample :
    Book.init "" "" "" "" none "" none "" "Shelf" "Available" none none "d0"
        none =
      { title := ""
        author := ""
        isbn := ""
        genre := ""
        year := none
        publisher := ""
        pages := none
        description := ""
        location := "Shelf"
        status := "Available"
        rating := none
        date_added := "d0"
        borrowed_by := ""
        borrowed_date := ""
        due_date := ""
        tags := [] } := rfl

/-- Claim C3 (amended): `Book.__init__` performs no validation: construction
succeeds for every title and author, including empty strings, storing both
verbatim and initializing the lending sub-state to "not borrowed" (the
non-emptiness of title and author is enforced only by the UI caller, outside
the core). -/
theorem c3_amended_no_construction_validation (title author isbn genre : String)
    (year : Option Int) (publisher : String) (pages : Option Int)
    (description location status : String) (rating : Option Int)
    (date_added : Option String) (nowDate : String)
    (tags : Option (List String)) :
    (Book.init title author isbn genre year publisher pages description
        location status rating date_added nowDate tags).title = title ∧
    (Book.init title author isbn genre year publisher pages description
        location status rating date_added nowDate tags).author = author ∧
    (Book.init title author isbn genre year publisher pages description
        location status rating date_added nowDate tags).borrowed_by = "" ∧
    (Book.init title author isbn genre year publisher pages description
        location status rating date_added nowDate tags).borrowed_date = "" ∧
    (Book.init title author isbn genre year publisher pages description
        location status rating date_added nowDate tags).due_date = "" ∧
    (Book.init title author isbn genre year publisher pages description
        location status rating date_added nowDate tags).date_added =
      date_added.getD nowDate :=
  ⟨rfl, rfl, rfl, rfl, rfl, rfl⟩

/-- Claim C4: `add_book` fails (raising the duplicate `ValueError`) exactly when
some existing book matches the new book's (title, author) pair
case-insensitively, leaving the collection unchanged; otherwise it appends
the new book at the end, preserving the order of all previously added
books. -/
theorem c4_add_book_duplicate (lib : Library) (b : Book) :
    ((∃ existing ∈ lib.books,
        strLower existing.title = strLower b.title ∧
        strLower existing.author = strLower b.author) →
      (lib.add_book b).1 = lib ∧ ((lib.add_book b).2).isSome = true) ∧
    ((¬ ∃ existing ∈ lib.books,
        strLower existing.title = strLower b.title ∧
        strLower existing.author = strLower b.author) →
      lib.add_book b = ({ lib with books := lib.books ++ [b] }, none)) := by
  have hiff : lib.books.any (fun existing => sameTitleAuthor existing b) = true ↔
      ∃ existing ∈ lib.books,
        strLower existing.title = strLower b.title ∧
        strLower existing.author = strLower b.author := by
    simp [List.any_eq_true, sameTitleAuthor]
  constructor
  · intro h
    have hc := hiff.mpr h
    simp [Library.add_book, hc]
  · intro h
    have hc : lib.books.any (fun existing => sameTitleAuthor existing b) = false := by
      rcases hb : lib.books.any (fun existing => sameTitleAuthor existing b) with _ | _
      · rfl
      · exact absurd (hiff.mp hb) h
    simp [Library.add_book, hc]

/-- Witness for C4 at concrete inputs, including the spec example: with
"Dune"/"Herbert" already present, adding "dune"/"HERBERT" fails and the
collection is unchanged; adding a fresh book appends it. -/
theorem c4_add_book_duplicate_witness :
    (({ name := "L",
        books := [Book.init "Dune" "Herbert" "" "" none "" none "" "Shelf"
          "Available" none (some "d0") "d0" none],
        file_path := "f" } : Library).add_book
      (Book.init "dune" "HERBERT" "" "" none "" none "" "Shelf" "Available"
        none (some "d1") "d1" none)).1 =
      ({ name := "L",
         books := [Book.init "Dune" "Herbert" "" "" none "" none "" "Shelf"
           "Available" none (some "d0") "d0" none],
         file_path := "f" } : Library) ∧
    ((({ name := "L",
         books := [Book.init "Dune" "Herbert" "" "" none "" none "" "Shelf"
           "Available" none (some "d0") "d0" none],
         file_path := "f" } : Library).add_book
      (Book.init "dune" "HERBERT" "" "" none "" none "" "Shelf" "Available"
        none (some "d1") "d1" none)).2).isSome = true :=
  (c4_add_book_duplicate _ _).1
    ⟨Book.init "Dune" "Herbert" "" "" none "" none "" "Shelf" "Available" none
        (some "d0") "d0" none, by decide⟩

theorem bookMatchesField_title_empty (b : Book) :
    bookMatchesField b "" "title" = true := by
  simp [bookMatchesField, Book.fieldStr, strContainsB_empty]

theorem searchAux_empty_query (bs : List Book) (i : Nat) :
    searchAux "" defaultSearchFields i bs = List.range' i bs.length := by
  induction bs generalizing i with
  | nil => simp [searchAux, List.range']
  | cons b rest ih =>
    have hmatch : defaultSearchFields.any (bookMatchesField b "") = true := by
      simp only [defaultSearchFields, List.any_cons, Bool.or_eq_true]
      exact Or.inl (bookMatchesField_title_empty b)
    simp [searchAux, hmatch, ih, List.range']

/-- Claim C5 counterexample: over a non-empty library, searching with the empty
query over the default fields returns every book ID (the empty string is a
substring of every string in Python), not the empty result the claim
requires. -/
theorem c5_counterexample :
    ({ name := "L",
       books := [Book.init "Dune" "Herbert" "" "" none "" none "" "Shelf"
         "Available" none (some "d0") "d0" none],
       file_path := "f" } : Library).search_books "" defaultSearchFields =
      [0] := by
  decide

/-- Claim C5 (amended): search with the empty query matches every book — it returns
the full ascending ID list `[0, ..., n-1]` — and over an empty collection it
returns the empty list; neither case is an error. -/
theorem c5_amended_empty_query_matches_all (lib : Library) :
    lib.search_books "" defaultSearchFields = List.range lib.books.length ∧
    (lib.books = [] → lib.search_books "" defaultSearchFields = []) := by
  have h : lib.search_books "" defaultSearchFields =
      List.range' 0 lib.books.length := by
    have hq : strLower "" = "" := rfl
    simp only [Library.search_books, hq]
    exact searchAux_empty_query lib.books 0
  constructor
  · rw [h, List.range_eq_range']
  · intro hb
    rw [h, hb]
    rfl

/-- Witness for C5 (amended) on an empty collection. -/
theorem c5_amended_empty_query_matches_all_witness :
    ({ name := "L", books := [], file_path := "f" } : Library).search_books ""
        defaultSearchFields = [] :=
  (c5_amended_empty_query_matches_all
    { name := "L", books := [], file_path := "f" }).2 rfl

theorem mem_filterAux (args : List FilterArg) (bs : List Book) (k i : Nat) :
    i ∈ filterAux args k bs ↔
      ∃ j b, bs[j]? = some b ∧ i = k + j ∧
        args.all (fun a => FilterArg.check b a) = true := by
  induction bs generalizing k with
  | nil => simp [filterAux]
  | cons hd rest ih =>
    have hrhs : (∃ j b, (hd :: rest)[j]? = some b ∧ i = k + j ∧
        args.all (fun a => FilterArg.check b a) = true) ↔
        ((i = k ∧ args.all (fun a => FilterArg.check hd a) = true) ∨
          (∃ j b, rest[j]? = some b ∧ i = (k + 1) + j ∧
            args.all (fun a => FilterArg.check b a) = true)) := by
      constructor
      · rintro ⟨j, b, hj, rfl, hb⟩
        cases j with
        | zero =>
          simp only [List.getElem?_cons_zero, Option.some.injEq] at hj
          subst hj
          exact Or.inl ⟨by omega, hb⟩
        | succ j =>
          refine Or.inr ⟨j, b, by simpa using hj, by omega, hb⟩
      · rintro (⟨rfl, hb⟩ | ⟨j, b, hj, rfl, hb⟩)
        · exact ⟨0, hd, by simp, by omega, hb⟩
        · exact ⟨j + 1, b, by simpa using hj, by omega, hb⟩
    rw [hrhs]
    unfold filterAux
    by_cases hc : args.all (fun a => FilterArg.check hd a) = true
    · rw [if_pos hc, List.mem_cons, ih]
      constructor
      · rintro (rfl | h)
        · exact Or.inl ⟨rfl, hc⟩
        · exact Or.inr h
      · rintro (⟨rfl, _⟩ | h)
        · exact Or.inl rfl
        · exact Or.inr h
    · rw [if_neg hc, ih]
      constructor
      · intro h
        exact Or.inr h
      · rintro (⟨rfl, hb⟩ | h)
        · exact absurd hb hc
        · exact h

theorem check_year_pair (b : Book) (v1 v2 : Int) :
    ([FilterArg.year_from v1, FilterArg.year_to v2].all
        (fun a => FilterArg.check b a) = true) ↔
      ∃ y, b.year = some y ∧ v1 ≤ y ∧ y ≤ v2 := by
  cases hy : b.year with
  | none => simp [FilterArg.check, hy]
  | some y => simp [FilterArg.check, hy]

theorem check_rating_pair (b : Book) (v1 v2 : Int) :
    ([FilterArg.rating_from v1, FilterArg.rating_to v2].all
        (fun a => FilterArg.check b a) = true) ↔
      ∃ r, b.rating = some r ∧ v1 ≤ r ∧ r ≤ v2 := by
  cases hr : b.rating with
  | none => simp [FilterArg.check, hr]
  | some r => simp [FilterArg.check, hr]

/-- Claim C6 counterexample: a book whose year is absent (`None`) IS excluded by a
`year_from`-only filter: the `year_from` guard fails, the generic branch
tests `hasattr(book, "year_from")` which is false, and the final `else` sets
`match = False`. The claim says such a book is not excluded. -/
theorem c6_counterexample :
    ({ name := "L",
       books := [Book.init "Dune" "Herbert" "" "" none "" none "" "Shelf"
         "Available" none (some "d0") "d0" none],
       file_path := "f" } : Library).filter_books
        [FilterArg.year_from 1990] = [] ∧
    (Book.init "Dune" "Herbert" "" "" none "" none "" "Shelf" "Available"
      none (some "d0") "d0" none).year = none := by
  decide

/-- Claim C6 (amended): the ranged year and rating bounds are inclusive, but a book
whose year (resp. rating) is absent is excluded — not ignored — by a ranged
year (resp. rating) predicate, via the fail-closed unknown-attribute branch:
an ID is in the filter result exactly when the book exists at that index, has
the attribute present, and its value lies within the inclusive bounds. -/
theorem c6_amended_inclusive_bounds_absent_excluded (lib : Library)
    (v1 v2 : Int) (i : Nat) :
    (i ∈ lib.filter_books [FilterArg.year_from v1, FilterArg.year_to v2] ↔
      ∃ b, lib.books[i]? = some b ∧ ∃ y, b.year = some y ∧ v1 ≤ y ∧ y ≤ v2) ∧
    (i ∈ lib.filter_books [FilterArg.rating_from v1, FilterArg.rating_to v2] ↔
      ∃ b, lib.books[i]? = some b ∧ ∃ r, b.rating = some r ∧ v1 ≤ r ∧ r ≤ v2) := by
  constructor
  · rw [Library.filter_books, mem_filterAux]
    constructor
    · rintro ⟨j, b, hj, rfl, hb⟩
      rw [Nat.zero_add]
      exact ⟨b, hj, (check_year_pair b v1 v2).mp hb⟩
    · rintro ⟨b, hi, hy⟩
      exact ⟨i, b, hi, by omega, (check_year_pair b v1 v2).mpr hy⟩
  · rw [Library.filter_books, mem_filterAux]
    constructor
    · rintro ⟨j, b, hj, rfl, hb⟩
      rw [Nat.zero_add]
      exact ⟨b, hj, (check_rating_pair b v1 v2).mp hb⟩
    · rintro ⟨b, hi, hr⟩
      exact ⟨i, b, hi, by omega, (check_rating_pair b v1 v2).mpr hr⟩

/-- Claim C7 counterexample: on a file that exists but is not parseable JSON,
`load_from_file` does not surface an error to its caller: it swallows the
`JSONDecodeError` into an `st.error` UI message and returns normally, keeping
the stale in-memory name and books. The claim requires a distinct
corrupt-document error to reach the caller. -/
theorem c7_counterexample :
    ({ name := "L", books := [], file_path := "f" } : Library).load_from_file
        (some "corrupt.json") (fun _ => some FsFile.corrupted) "d0" =
      { lib := { name := "L", books := [], file_path := "corrupt.json" },
        uiError :=
          some ("Error: " ++ "corrupt.json" ++ " is not a valid JSON file.") } := by
  rfl

/-- Claim C7 (amended): `load_from_file` on a non-existent path leaves name and
books untouched and signals nothing; on an unparseable file it catches the
parse error, reports it only through the UI (`st.error`) and returns
normally, keeping the stale name and books — no error reaches the caller.
(A supplied path argument still overwrites `file_path` first; see C10.) -/
theorem c7_amended_load_error_swallowed (lib : Library)
    (fs : String → Option FsFile) (nowDate : String) :
    (fs lib.file_path = none →
      lib.load_from_file none fs nowDate = { lib := lib, uiError := none }) ∧
    (fs lib.file_path = some FsFile.corrupted →
      lib.load_from_file none fs nowDate =
        { lib := lib,
          uiError := some ("Error: " ++ lib.file_path ++
            " is not a valid JSON file.") }) := by
  constructor <;> intro h <;> simp [Library.load_from_file, h]

/-- Witness for C7 (amended) at a concrete library, a missing file and a
corrupted file. -/
theorem c7_amended_load_error_swallowed_witness :
    (({ name := "L", books := [], file_path := "f" } : Library).load_from_file
        none (fun _ => none) "d0" =
      { lib := { name := "L", books := [], file_path := "f" },
        uiError := none }) ∧
    (({ name := "L", books := [], file_path := "f" } : Library).load_from_file
        none (fun _ => some FsFile.corrupted) "d0" =
      { lib := { name := "L", books := [], file_path := "f" },
        uiError := some ("Error: " ++ "f" ++ " is not a valid JSON file.") }) :=
  ⟨(c7_amended_load_error_swallowed _ (fun _ => none) "d0").1 rfl,
    (c7_amended_load_error_swallowed _ (fun _ => some FsFile.corrupted) "d0").2 rfl⟩

/-- Claim C8: serialization round-trip stability: deserializing a serialized book
succeeds and reproduces the book exactly, so serializing again yields the
same flat document — for every book whose rating lies in 1..5 (the claim's
precondition; the property in fact needs no restriction on the rating). -/
theorem c8_serialize_roundtrip (b : Book) (nowDate : String)
    (hr : b.rating.all (fun r => decide (1 ≤ r) && decide (r ≤ 5)) = true) :
    Book.from_dict b.to_dict nowDate = Except.ok b ∧
    (Book.from_dict b.to_dict nowDate).map Book.to_dict =
      Except.ok b.to_dict := by
  refine ⟨?_, ?_⟩ <;> cases b <;> rfl

/-- Witness for C8 on a concrete book with rating 4. -/
theorem c8_serialize_roundtrip_witness :
    Book.from_dict
        (Book.init "Dune" "Herbert" "i" "SF" (some 1965) "p" (some 412) "de"
          "Shelf" "Available" (some 4) (some "d0") "d0"
          (some ["classic"])).to_dict "d9" =
      Except.ok (Book.init "Dune" "Herbert" "i" "SF" (some 1965) "p" (some 412)
        "de" "Shelf" "Available" (some 4) (some "d0") "d0" (some ["classic"])) :=
  (c8_serialize_roundtrip _ "d9" (by decide)).1

/-- Claim C10: whenever `save_to_file` or `load_from_file` receives a non-`None`
path argument, the library's stored `file_path` is overwritten with it before
anything else happens: the saved document is written to the new path, and
`load_from_file` on a path that does not exist still changes `file_path` for
all later save/load calls even though name and books stay unchanged. -/
theorem c10_persistence_path_overwrite (lib : Library) (p : String)
    (fs : String → Option FsFile) (nowDate : String) :
    (lib.save_to_file (some p)).1.file_path = p ∧
    ((lib.save_to_file (some p)).2).1 = p ∧
    (lib.load_from_file (some p) fs nowDate).lib.file_path = p ∧
    (fs p = none →
      lib.load_from_file (some p) fs nowDate =
        { lib := { lib with file_path := p }, uiError := none }) := by
  refine ⟨rfl, rfl, ?_, fun h => ?_⟩
  · simp only [Library.load_from_file]
    rcases hfs : fs p with _ | f
    · simp [hfs]
    · cases f with
      | corrupted => simp [hfs]
      | parsed d =>
        simp only [hfs]
        split <;> rfl
  · simp [Library.load_from_file, h]

/-- Witness for C10: loading from a missing path updates only `file_path`. -/
theorem c10_persistence_path_overwrite_witness :
    ({ name := "L", books := [], file_path := "old.json" } : Library).load_from_file
        (some "new.json") (fun _ => none) "d0" =
      { lib := { name := "L", books := [], file_path := "new.json" },
        uiError := none } :=
  (c10_persistence_path_overwrite
    { name := "L", books := [], file_path := "old.json" } "new.json"
    (fun _ => none) "d0").2.2.2 rfl

/-- The contribution of one book to (`total_rating`, `rated_books`) in the
statistics loop: Python truthiness counts a rating as rated exactly when it
is present and nonzero. -/
def ratingContrib (b : Book) : Int × Nat :=
  match b.rating with
  | some r => if r ≠ 0 then (r, 1) else (0, 0)
  | none => (0, 0)

/-- A book's rating is well-formed: absent or in the documented range 1..5. -/
def ratingWF (b : Book) : Bool :=
  match b.rating with
  | some r => decide (1 ≤ r ∧ r ≤ 5)
  | none => true

/-- The ratings of the rated books of a library, in catalog order ("rated" in
the spec sense: the rating is present). -/
def ratedRatings (lib : Library) : List Int := lib.books.filterMap Book.rating

def truthyRatingSum (bs : List Book) : Int :=
  (bs.map (fun b => (ratingContrib b).1)).sum

def truthyRatingCnt (bs : List Book) : Nat :=
  (bs.map (fun b => (ratingContrib b).2)).sum

theorem statsStep_snd (acc : Stats × Int × Nat) (b : Book) :
    ((statsStep acc b).2.1 = acc.2.1 + (ratingContrib b).1) ∧
    ((statsStep acc b).2.2 = acc.2.2 + (ratingContrib b).2) := by
  cases hb : b.rating with
  | none => simp [statsStep, ratingContrib, hb]
  | some r =>
    by_cases hr : r = 0
    · simp [statsStep, ratingContrib, hb, hr]
    · simp [statsStep, ratingContrib, hb, hr]

theorem statsFold_total (bs : List Book) (acc : Stats × Int × Nat) :
    (bs.foldl statsStep acc).2.1 = acc.2.1 + truthyRatingSum bs := by
  induction bs generalizing acc with
  | nil => simp [truthyRatingSum]
  | cons b rest ih =>
    rw [List.foldl_cons, ih (statsStep acc b), (statsStep_snd acc b).1]
    simp [truthyRatingSum]
    omega

theorem statsFold_cnt (bs : List Book) (acc : Stats × Int × Nat) :
    (bs.foldl statsStep acc).2.2 = acc.2.2 + truthyRatingCnt bs := by
  induction bs generalizing acc with
  | nil => simp [truthyRatingCnt]
  | cons b rest ih =>
    rw [List.foldl_cons, ih (statsStep acc b), (statsStep_snd acc b).2]
    simp [truthyRatingCnt]
    omega

theorem oldestUpd_avg (s : Stats) (t : String) (y : Int) :
    (oldestUpd s t y).avg_rating = s.avg_rating := by
  unfold oldestUpd
  repeat' split
  all_goals rfl

theorem newestUpd_avg (s : Stats) (t : String) (y : Int) :
    (newestUpd s t y).avg_rating = s.avg_rating := by
  unfold newestUpd
  repeat' split
  all_goals rfl

theorem yearUpdate_avg (s : Stats) (b : Book) :
    (yearUpdate s b).avg_rating = s.avg_rating := by
  unfold yearUpdate
  repeat' split
  all_goals simp [newestUpd_avg, oldestUpd_avg]

theorem statsStep_avg (acc : Stats × Int × Nat) (b : Book) :
    (statsStep acc b).1.avg_rating = acc.1.avg_rating := by
  cases hb : b.rating with
  | none =>
    simp [statsStep, hb, yearUpdate_avg]
    split <;> rfl
  | some r =>
    by_cases hr : r = 0
    · simp [statsStep, hb, hr, yearUpdate_avg]
      split <;> rfl
    · simp [statsStep, hb, hr, yearUpdate_avg]
      split <;> rfl

theorem statsFold_avg (bs : List Book) (acc : Stats × Int × Nat) :
    (bs.foldl statsStep acc).1.avg_rating = acc.1.avg_rating := by
  induction bs generalizing acc with
  | nil => rfl
  | cons b rest ih =>
    rw [List.foldl_cons, ih (statsStep acc b), statsStep_avg]

theorem get_statistics_avg (round2 : ℚ → ℚ) (lib : Library)
    (hb : lib.books.isEmpty = false) :
    (lib.get_statistics round2).avg_rating =
      if truthyRatingCnt lib.books > 0 then
        round2 ((truthyRatingSum lib.books : ℚ) / (truthyRatingCnt lib.books : ℚ))
      else 0 := by
  simp only [Library.get_statistics, hb, Bool.false_eq_true, if_false]
  rw [statsFold_cnt, statsFold_total]
  dsimp only
  simp only [Nat.zero_add, zero_add]
  split
  · rfl
  · rw [statsFold_avg]

theorem truthyRatingSum_cons (b : Book) (rest : List Book) :
    truthyRatingSum (b :: rest) = (ratingContrib b).1 + truthyRatingSum rest := by
  simp [truthyRatingSum]

theorem truthyRatingCnt_cons (b : Book) (rest : List Book) :
    truthyRatingCnt (b :: rest) = (ratingContrib b).2 + truthyRatingCnt rest := by
  simp [truthyRatingCnt]

theorem truthy_eq_rated (bs : List Book) (hv : ∀ b ∈ bs, ratingWF b = true) :
    truthyRatingSum bs = (bs.filterMap Book.rating).sum ∧
    truthyRatingCnt bs = (bs.filterMap Book.rating).length := by
  induction bs with
  | nil => exact ⟨rfl, rfl⟩
  | cons b rest ih =>
    have hb := hv b (List.mem_cons_self _ _)
    have ihr := ih (fun x hx => hv x (List.mem_cons_of_mem _ hx))
    cases hrat : b.rating with
    | none =>
      refine ⟨?_, ?_⟩
      · rw [truthyRatingSum_cons, List.filterMap_cons_none hrat, ihr.1]
        simp [ratingContrib, hrat]
      · rw [truthyRatingCnt_cons, List.filterMap_cons_none hrat, ihr.2]
        simp [ratingContrib, hrat]
    | some r =>
      have hr5 : 1 ≤ r ∧ r ≤ 5 := by
        simp only [ratingWF, hrat, decide_eq_true_eq] at hb
        exact hb
      have hrne : r ≠ 0 := by omega
      refine ⟨?_, ?_⟩
      · rw [truthyRatingSum_cons, List.filterMap_cons_some hrat, ihr.1]
        simp [ratingContrib, hrat, hrne]
      · rw [truthyRatingCnt_cons, List.filterMap_cons_some hrat, ihr.2]
        simp [ratingContrib, hrat, hrne]
        omega

/-- Claim C9: `get_statistics` computes `avg_rating` as the rounding (`round2`,
modelling Python `round(x, 2)`) of the exact mean of the ratings over rated
books only, and 0 when no book is rated; on an empty catalog it returns the
all-zero dictionary — total/available/borrowed counts 0, empty histograms,
rating buckets 1-5 and "unrated" all 0 — and, being a total function, never
raises. Stated for libraries whose book ratings are absent or in 1..5. -/
theorem c9_statistics_avg_and_empty (round2 : ℚ → ℚ) (lib : Library)
    (hv : ∀ b ∈ lib.books, ratingWF b = true) :
    (lib.books = [] → lib.get_statistics round2 = emptyStats) ∧
    (ratedRatings lib = [] → (lib.get_statistics round2).avg_rating = 0) ∧
    (ratedRatings lib ≠ [] →
      (lib.get_statistics round2).avg_rating =
        round2 (((ratedRatings lib).sum : ℚ) / ((ratedRatings lib).length : ℚ))) := by
  refine ⟨fun he => ?_, fun hr => ?_, fun hr => ?_⟩
  · simp [Library.get_statistics, he]
  · by_cases he : lib.books = []
    · simp [Library.get_statistics, he, emptyStats]
    · have hbe : lib.books.isEmpty = false := by
        simpa [List.isEmpty_iff] using he
      have htr := truthy_eq_rated lib.books hv
      have hr2 : lib.books.filterMap Book.rating = [] := by
        simpa [ratedRatings] using hr
      have hcnt : truthyRatingCnt lib.books = 0 := by
        rw [htr.2, hr2]
        rfl
      rw [get_statistics_avg round2 lib hbe, hcnt]
      simp
  · have he : lib.books ≠ [] := by
      intro h
      exact hr (by simp [ratedRatings, h])
    have hbe : lib.books.isEmpty = false := by
      simpa [List.isEmpty_iff] using he
    have htr := truthy_eq_rated lib.books hv
    have hrr : ratedRatings lib = lib.books.filterMap Book.rating := rfl
    have hpos : 0 < (ratedRatings lib).length := List.length_pos.mpr hr
    rw [get_statistics_avg round2 lib hbe, htr.1, htr.2, ← hrr,
      if_pos (by omega)]

/-- Witness for C9 on a one-book catalog with rating 4, with the identity
rounding: the average rating is 4. -/
theorem c9_statistics_avg_and_empty_witness :
    (({ name := "L",
        books := [Book.init "Dune" "Herbert" "" "" none "" none "" "Shelf"
          "Available" (some 4) (some "d0") "d0" none],
        file_path := "f" } : Library).get_statistics (fun q => q)).avg_rating =
      4 :=
  (((c9_statistics_avg_and_empty (fun q => q) _ (by decide)).2.2)
    (by decide)).trans (by norm_num [ratedRatings, Book.init, List.filterMap_cons, List.filterMap_nil])
